import Mathlib

/-!
Verification of the PPTX ⇄ JSON transcoding core of `src/backend/app.py`.

Numbers that are Python floats in the source are modelled as exact rationals
(`ℚ`); native lengths (EMU) are integers, as in the document format.  The
`python-pptx` library is outside the repository; where its behaviour decides a
claim it is modelled from the spec, and each such definition says so in its
doc comment.
-/

namespace SlideApp

/-! ### Python string helpers -/

/-- Hex digit character for a value `0 ≤ n < 16`, lowercase (as in Python
`format(n, "x")`). -/
def toHexChar (n : Nat) : Char :=
  if n < 10 then Char.ofNat (48 + n) else Char.ofNat (87 + n)

/-- Character accepted as a hexadecimal digit by Python `int(s, 16)`. -/
def isHexDigitChar (c : Char) : Bool :=
  (('0' ≤ c) && (c ≤ '9')) || (('a' ≤ c) && (c ≤ 'f')) || (('A' ≤ c) && (c ≤ 'F'))

/-- Value of a hexadecimal digit character. -/
def hexDigitVal (c : Char) : Nat :=
  if ('0' ≤ c) && (c ≤ '9') then c.toNat - 48
  else if ('a' ≤ c) && (c ≤ 'f') then c.toNat - 87
  else if ('A' ≤ c) && (c ≤ 'F') then c.toNat - 55
  else 0

/-- ASCII whitespace as stripped by Python `str.strip()` / `int()`. -/
def pySpace (c : Char) : Bool :=
  c == ' ' || c == '\t' || c == '\n' || c == '\r' || c == '\x0b' || c == '\x0c'

/-- Python `str.strip()` (ASCII whitespace). -/
def pyStrip (s : String) : String :=
  String.mk (((s.toList.dropWhile pySpace).reverse.dropWhile pySpace).reverse)

/-- Python `pat in s` substring containment (for non-empty `pat`). -/
def containsSub (s pat : String) : Bool :=
  (s.splitOn pat).length ≥ 2

/-- Python `int(s, 16)` on a short slice: strips surrounding whitespace, allows
one optional sign, then requires a non-empty run of hex digits; any other
input raises `ValueError`, modelled as `none`.  (The `0x`-prefix and underscore
forms Python also accepts cannot occur in the 2-character slices this program
feeds in.) -/
def hexValList (cs : List Char) : Nat :=
  cs.foldl (fun a c => a * 16 + hexDigitVal c) 0

def pyIntHex (cs : List Char) : Option Int :=
  let t := ((cs.dropWhile pySpace).reverse.dropWhile pySpace).reverse
  match t with
  | '+' :: ds =>
    if !ds.isEmpty && ds.all isHexDigitChar then some (hexValList ds) else none
  | '-' :: ds =>
    if !ds.isEmpty && ds.all isHexDigitChar then some (-(hexValList ds : Int)) else none
  | ds =>
    if !ds.isEmpty && ds.all isHexDigitChar then some (hexValList ds) else none

/-! ### Unit conversions (`app.py` lines 52–65) -/

def PIXELS_PER_INCH : ℚ := 96

def EMU_PER_INCH : ℚ := 914400

/-- `emu_to_pixels(emu)`: `inches = emu / EMU_PER_INCH; inches * PIXELS_PER_INCH`. -/
def emu_to_pixels (emu : Int) : ℚ :=
  (emu : ℚ) / EMU_PER_INCH * PIXELS_PER_INCH

/-- Python `int()` applied to a real number: truncation toward zero. -/
def ratTrunc (q : ℚ) : Int :=
  if 0 ≤ q then ⌊q⌋ else ⌈q⌉

/-- `pixels_to_emu(pixels)`: `inches = pixels / PIXELS_PER_INCH;
`int(inches * EMU_PER_INCH)`. -/
def pixels_to_emu (pixels : ℚ) : Int :=
  ratTrunc (pixels / PIXELS_PER_INCH * EMU_PER_INCH)

/-! ### Colors -/

/-- One byte of an RGB color.  `python-pptx` `RGBColor` components are always
in `0..255`. -/
abbrev Byte := Fin 256

structure RGBTriple where
  r : Byte
  g : Byte
  b : Byte
deriving DecidableEq

/-- Python `f"{n:02x}"` for a byte. -/
def pyHex02 (n : Byte) : List Char :=
  [toHexChar (n.val / 16), toHexChar (n.val % 16)]

/-- A `python-pptx` `ColorFormat`: `rgb` is `some` a triple exactly when the
color is a solid RGB color; `none` models both "no RGB value" and an `.rgb`
access that raises (theme/scheme colors), which `rgb_to_hex` catches — the two
produce the same `None` result in the source. -/
structure ColorFormat where
  rgb : Option RGBTriple
deriving DecidableEq

/-- `rgb_to_hex(obj)` (`app.py` 68–91): `none` input models Python `None`. -/
def rgb_to_hex (obj : Option ColorFormat) : Option String :=
  match obj with
  | none => none
  | some cf =>
    match cf.rgb with
    | some t => some (String.mk ('#' :: pyHex02 t.r ++ pyHex02 t.g ++ pyHex02 t.b))
    | none => none

/-- The canonical `#rrggbb` string for a triple, exactly the string
`rgb_to_hex` produces. -/
def canonHex (t : RGBTriple) : String :=
  String.mk ('#' :: pyHex02 t.r ++ pyHex02 t.g ++ pyHex02 t.b)

/-- `hex_to_rgb(hex_color)` (`app.py` 94–99).  `lstrip("#")` removes every
leading `#`; a stripped string whose length is not 6 yields white; otherwise
the three 2-character slices go through `int(_, 16)`, whose `ValueError` is
modelled as `none` (the function has no handler for it). -/
def hex_to_rgb (hex_color : String) : Option (Int × Int × Int) :=
  match hex_color.toList.dropWhile (· == '#') with
  | [c1, c2, c3, c4, c5, c6] =>
    match pyIntHex [c1, c2], pyIntHex [c3, c4], pyIntHex [c5, c6] with
    | some r, some g, some b => some (r, g, b)
    | _, _, _ => none
  | _ => some (255, 255, 255)

/-- `python-pptx` `RGBColor(r, g, b)`: validates that each component is an
integer in `0..255`, raising `ValueError` (`none`) otherwise. -/
def mkRGBColor (r g b : Int) : Option RGBTriple :=
  if h : 0 ≤ r ∧ r < 256 ∧ 0 ≤ g ∧ g < 256 ∧ 0 ≤ b ∧ b < 256 then
    some ⟨⟨r.toNat, by omega⟩, ⟨g.toNat, by omega⟩, ⟨b.toNat, by omega⟩⟩
  else none

/-! ### Document model (the `python-pptx` object tree the source reads) -/

/-- `MSO_FILL` member carried by `fill.type`. -/
inductive MsoFillKind
  | solid
  | patterned
  | gradient
  | background
  | picture
  | textured
deriving DecidableEq

/-- A `FillFormat`: `ty` is `fill.type` (`none` models the property being
`None`), `fore_color` is the `.fore_color` access, which raises (`Except.error`)
for fill kinds without a foreground color. -/
structure FillInfo where
  ty : Option MsoFillKind
  fore_color : Except Unit ColorFormat

/-- `MSO_ANCHOR` members distinguished by the source. -/
inductive VAnchorE
  | top
  | middle
  | bottom
deriving DecidableEq

/-- `PP_ALIGN` members distinguished by the source (`distribute` stands for
any further member, mapped to the default). -/
inductive PAlignE
  | left
  | center
  | right
  | justify
  | distribute
deriving DecidableEq

/-- A run or paragraph font: `size` in points (`None` when unset), `name`,
`color` (a `ColorFormat`), tri-state `bold`/`italic` (`None`/`True`/`False`). -/
structure FontInfo where
  size : Option ℚ
  name : Option String
  color : Option ColorFormat
  bold : Option Bool
  italic : Option Bool

/-- `paragraph.line_spacing`: a `Length` (has `.pt`, absolute points) or a
bare float multiplier. -/
inductive LineSpacing
  | pts (val : ℚ)
  | mult (val : ℚ)

structure Paragraph where
  alignment : Option PAlignE
  runs : List FontInfo
  font : FontInfo
  line_spacing : Option LineSpacing

/-- A text frame.  `margins` is `(left, right, top, bottom)` in EMU; `none`
models the margin access raising (the source defaults the padding then).
`word_wrap` is tri-state (`None`/`True`/`False`). -/
structure TextFrame where
  text : String
  margins : Option (Int × Int × Int × Int)
  vertical_anchor : Option VAnchorE
  word_wrap : Option Bool
  paragraphs : List Paragraph

/-- `MSO_SHAPE_TYPE` members distinguished by the source. -/
inductive MsoShapeType
  | auto_shape
  | text_box
  | picture
  | chart
  | group
  | line
  | other
deriving DecidableEq

/-- A shape as the forward transcoder reads it.  `text_frame` is `some` when
`has_text_frame` and the frame is not `None`.  `fill` is `none` when the
`shape.fill` access raises (caught by the rect branch's handler).  `broken`
models any other attribute access raising inside `parse_shape`'s `try`, which
the source converts to `None`. -/
structure ShapeInput where
  shape_id : Nat
  name : String
  left : Int
  top : Int
  width : Int
  height : Int
  text_frame : Option TextFrame
  shape_type : MsoShapeType
  fill : Option FillInfo
  broken : Bool := false

structure PrsSlide where
  background : Option FillInfo
  shapes : List ShapeInput

structure PrsDoc where
  slide_width : Int
  slide_height : Int
  slides : List PrsSlide

/-! ### Forward transcoder output (the JSON scene graph) -/

structure PaddingQ where
  left : ℚ
  right : ℚ
  top : ℚ
  bottom : ℚ
deriving DecidableEq

/-- The per-shape JSON dict `parse_shape` builds; keys the source may leave
absent are `Option` fields defaulting to `none`. -/
structure ShapeData where
  id : String
  name : String
  x : ℚ
  y : ℚ
  width : ℚ
  height : ℚ
  type : String
  draggable : Bool
  text : Option String := none
  padding : Option PaddingQ := none
  vAlign : Option String := none
  wrap : Option Bool := none
  align : Option String := none
  fontSize : Option ℚ := none
  fill : Option String := none
  fontStyle : Option String := none
  fontFamily : Option String := none
  lineHeight : Option ℚ := none
deriving DecidableEq

structure SlideOut where
  id : String
  index : Nat
  backgroundColor : String
  shapes : List ShapeData
deriving DecidableEq

structure ParseResult where
  width : ℚ
  height : ℚ
  slides : List SlideOut
  error : Option String := none
deriving DecidableEq

/-! ### Forward transcoder (`app.py` 102–347) -/

/-- `get_background_color(slide)` (`app.py` 102–113).  The argument is
`slide.background.fill`; `none` models that access raising.  A `FillFormat`
object is always truthy, so the guard is exactly `fill.type is not None`. -/
def get_background_color (bgfill : Option FillInfo) : String :=
  match bgfill with
  | none => "#0f172a"
  | some f =>
    if f.ty ≠ none then
      match f.fore_color with
      | .error _ => "#0f172a"
      | .ok cf =>
        match rgb_to_hex (some cf) with
        | some color => color
        | none => "#0f172a"
    else "#0f172a"

/-- `get_text_alignment(alignment)` (`app.py` 116–126). -/
def get_text_alignment (alignment : Option PAlignE) : String :=
  match alignment with
  | none => "left"
  | some .center => "center"
  | some .right => "right"
  | some .justify => "justify"
  | some _ => "left"

/-- `get_vertical_alignment(anchor)` (`app.py` 129–140). -/
def get_vertical_alignment (anchor : Option VAnchorE) : String :=
  match anchor with
  | none => "top"
  | some .middle => "middle"
  | some .bottom => "bottom"
  | some _ => "top"

/-- The style dict `_font_to_style` returns. -/
structure StyleDict where
  fontSize : Option ℚ := none
  fontFamily : Option String := none
  fill : Option String := none
  fontStyle : String := "normal"
deriving DecidableEq

/-- `_font_to_style(font)` (`app.py` 143–183).  `bool(None)` is `False`, so
the tri-state `bold`/`italic` collapse through `getD false`; an empty font
name is falsy and skipped. -/
def font_to_style (font : FontInfo) : StyleDict :=
  { fontSize := font.size
    fontFamily :=
      match font.name with
      | some n => if n ≠ "" then some n else none
      | none => none
    fill := rgb_to_hex font.color
    fontStyle :=
      if font.bold.getD false || font.italic.getD false then
        String.intercalate " "
          ((if font.bold.getD false then ["bold"] else []) ++
           (if font.italic.getD false then ["italic"] else []))
      else "normal" }

/-- The `style = _font_to_style(...)` choice (`app.py` 246–250): first run's
font when the paragraph has runs, else the paragraph font. -/
def resolvedStyle (para : Paragraph) : StyleDict :=
  match para.runs with
  | r :: _ => font_to_style r
  | [] => font_to_style para.font

/-- `shape_data["fontSize"] = style.get("fontSize", 16.0)` (`app.py` 253). -/
def parsedFontSize (para : Paragraph) : ℚ :=
  (resolvedStyle para).fontSize.getD 16

/-- The line-height computation (`app.py` 262–276): `None` spacing defaults to
`1.1`; an absolute `Length` is divided by `shape_data["fontSize"] or 16.0`
(Python `or`: a `0.0` font size falls back to `16.0`) and clamped to `≥ 1`;
a bare multiplier is clamped to `≥ 1`. -/
def parsedLineHeight (para : Paragraph) : ℚ :=
  match para.line_spacing with
  | none => 11 / 10
  | some (.pts p) =>
    max 1 (p / (if parsedFontSize para = 0 then 16 else parsedFontSize para))
  | some (.mult m) => max 1 m

/-- The padding dict (`app.py` 219–227): margins in EMU converted to pixels,
all-zero on failure. -/
def parsedPadding : Option (Int × Int × Int × Int) → PaddingQ
  | some (l, r, t, b) => ⟨emu_to_pixels l, emu_to_pixels r, emu_to_pixels t, emu_to_pixels b⟩
  | none => ⟨0, 0, 0, 0⟩

/-- The common fields every parsed shape starts from (`app.py` 199–208). -/
def baseShape (s : ShapeInput) : ShapeData :=
  { id := toString s.shape_id
    name := s.name
    x := emu_to_pixels s.left
    y := emu_to_pixels s.top
    width := emu_to_pixels s.width
    height := emu_to_pixels s.height
    type := "rect"
    draggable := true }

/-- The text branch of `parse_shape` (`app.py` 215–285), entered when the
trimmed text is non-empty. -/
def text_branch (base : ShapeData) (tf : TextFrame) : ShapeData :=
  match tf.paragraphs with
  | para :: _ =>
    { base with
      type := "text"
      text := some tf.text
      padding := some (parsedPadding tf.margins)
      vAlign := some (get_vertical_alignment tf.vertical_anchor)
      wrap := some (tf.word_wrap.getD false)
      align := some (get_text_alignment para.alignment)
      fontSize := some (parsedFontSize para)
      fill := some ((resolvedStyle para).fill.getD "#ffffff")
      fontStyle := some (resolvedStyle para).fontStyle
      fontFamily := (resolvedStyle para).fontFamily
      lineHeight := some (parsedLineHeight para) }
  | [] =>
    { base with
      type := "text"
      text := some tf.text
      padding := some (parsedPadding tf.margins)
      vAlign := some (get_vertical_alignment tf.vertical_anchor)
      wrap := some (tf.word_wrap.getD false)
      align := some "left"
      fontSize := some (16 : ℚ)
      fill := some "#ffffff"
      fontStyle := some "normal"
      lineHeight := some (11 / 10 : ℚ) }

/-- The auto-shape branch of `parse_shape` (`app.py` 288–308): only
`MSO_SHAPE_TYPE.AUTO_SHAPE` produces a rect; its fill color is read like the
background fill, defaulting to `#1e293b`. -/
def rect_branch (s : ShapeInput) (base : ShapeData) : Option ShapeData :=
  if s.shape_type = .auto_shape then
    some { base with
      type := "rect"
      fill := some ((match s.fill with
        | none => none
        | some fi =>
          if fi.ty ≠ none then
            match fi.fore_color with
            | .ok cf => rgb_to_hex (some cf)
            | .error _ => none
          else none : Option String).getD "#1e293b") }
  else none

/-- `parse_shape(shape)` (`app.py` 193–312).  The surrounding `try/except`
returning `None` is modelled by the `broken` flag; a whitespace-only text
frame falls through to the auto-shape test, exactly as in the source. -/
def parse_shape (s : ShapeInput) : Option ShapeData :=
  if s.broken then none
  else
    match s.text_frame with
    | some tf =>
      if pyStrip tf.text ≠ "" then some (text_branch (baseShape s) tf)
      else rect_branch s (baseShape s)
    | none => rect_branch s (baseShape s)

/-- One entry of the slide loop (`app.py` 326–339).  `if parsed:` is a
non-`None` test: the dicts `parse_shape` returns are never empty/falsy. -/
def parse_slide (idx : Nat) (slide : PrsSlide) : SlideOut :=
  { id := "slide-" ++ toString (idx + 1)
    index := idx
    backgroundColor := get_background_color slide.background
    shapes := slide.shapes.filterMap parse_shape }

/-- `parse_pptx_bytes(pptx_bytes)` (`app.py` 315–347).  The argument is the
outcome of `Presentation(BytesIO(bytes))` — the only failure point inside the
`try`, since every later step catches its own exceptions; the library call
itself is outside the repository and is modelled as an arbitrary
`Except` value carrying the exception's message on failure. -/
def parse_pptx_bytes (loaded : Except String PrsDoc) : ParseResult :=
  match loaded with
  | .error e => { width := 1280, height := 720, slides := [], error := some e }
  | .ok prs =>
    { width := emu_to_pixels prs.slide_width
      height := emu_to_pixels prs.slide_height
      slides := (prs.slides.enum).map (fun p => parse_slide p.1 p.2)
      error := none }

/-! ### Reverse transcoder input (the edited scene-graph JSON) -/

/-- The `padding` sub-dict; `pad.get(k, 0)` defaults each margin to 0. -/
structure JPadding where
  left : ℚ := 0
  right : ℚ := 0
  top : ℚ := 0
  bottom : ℚ := 0

/-- A shape entry of the JSON handed to `build_pptx_from_json`; `none` is an
absent key, read through `dict.get` with the source's defaults. -/
structure JShape where
  type : Option String := none
  x : Option ℚ := none
  y : Option ℚ := none
  width : Option ℚ := none
  height : Option ℚ := none
  fill : Option String := none
  text : Option String := none
  wrap : Option Bool := none
  padding : Option JPadding := none
  vAlign : Option String := none
  fontSize : Option ℚ := none
  fontFamily : Option String := none
  fontStyle : Option String := none
  align : Option String := none
  lineHeight : Option ℚ := none

structure JSlide where
  backgroundColor : Option String := none
  shapes : List JShape := []

structure JPres where
  width : Option ℚ := none
  height : Option ℚ := none
  slides : List JSlide := []

/-! ### Reverse transcoder (`app.py` 354–461) -/

/-- The first paragraph of a built text box (`app.py` 420–455).  Modelled from
the spec for the parts living inside `python-pptx`: §4.3 writes the text and
the font (size, family, color, bold, italic, alignment, line spacing) on the
*first paragraph*, and §4.2's forward precedence "run > paragraph" together
with §4.3's round-trip property mean the built paragraph carries its font at
paragraph level and has no styled runs; line spacing is stored as the exact
absolute point value `Pt(max(1.0, lineHeight) * fontSize)`. -/
def builtParagraph (sd : JShape) (rgbv : RGBTriple) : Paragraph :=
  { alignment := some
      (match sd.align.getD "left" with
       | "center" => PAlignE.center
       | "right" => PAlignE.right
       | "justify" => PAlignE.justify
       | _ => PAlignE.left)
    runs := []
    font :=
      { size := some (sd.fontSize.getD 16)
        name :=
          match sd.fontFamily with
          | some n => if n ≠ "" then some n else none
          | none => none
        color := some { rgb := some rgbv }
        bold := some (containsSub (sd.fontStyle.getD "normal") "bold")
        italic := some (containsSub (sd.fontStyle.getD "normal") "italic") }
    line_spacing := some (.pts (max 1 (sd.lineHeight.getD (11 / 10)) * sd.fontSize.getD 16)) }

/-- The text box built for a `"text"` entry (`app.py` 393–455).  A fresh
text box has no usable fill; its `fore_color` access raises. -/
def builtTextShape (sd : JShape) (rgbv : RGBTriple) : ShapeInput :=
  { shape_id := 0
    name := ""
    left := pixels_to_emu (sd.x.getD 0)
    top := pixels_to_emu (sd.y.getD 0)
    width := pixels_to_emu (sd.width.getD 100)
    height := pixels_to_emu (sd.height.getD 50)
    text_frame := some
      { text := sd.text.getD ""
        margins := some
          (pixels_to_emu (sd.padding.getD {}).left,
           pixels_to_emu (sd.padding.getD {}).right,
           pixels_to_emu (sd.padding.getD {}).top,
           pixels_to_emu (sd.padding.getD {}).bottom)
        vertical_anchor := some
          (match sd.vAlign.getD "top" with
           | "middle" => VAnchorE.middle
           | "bottom" => VAnchorE.bottom
           | _ => VAnchorE.top)
        word_wrap := some (sd.wrap.getD true)
        paragraphs := [builtParagraph sd rgbv] }
    shape_type := .text_box
    fill := some { ty := some .background, fore_color := .error () }
    broken := false }

/-- The rectangle auto-shape built for a `"rect"` entry (`app.py` 385–391):
solid fill with the given color, outline disabled.  An auto-shape carries an
empty text frame with default margins, so the forward transcoder's text test
sees whitespace-only text and falls through to the rect branch. -/
def builtRectShape (sd : JShape) (rgbv : RGBTriple) : ShapeInput :=
  { shape_id := 0
    name := ""
    left := pixels_to_emu (sd.x.getD 0)
    top := pixels_to_emu (sd.y.getD 0)
    width := pixels_to_emu (sd.width.getD 100)
    height := pixels_to_emu (sd.height.getD 50)
    text_frame := some
      { text := ""
        margins := some (91440, 91440, 45720, 45720)
        vertical_anchor := none
        word_wrap := none
        paragraphs :=
          [{ alignment := none
             runs := []
             font := { size := none, name := none, color := none, bold := none, italic := none }
             line_spacing := none }] }
    shape_type := .auto_shape
    fill := some { ty := some .solid, fore_color := .ok { rgb := some rgbv } }
    broken := false }

/-- One iteration of the shape loop (`app.py` 378–456): a `"rect"` or
`"text"` entry builds a native shape (failing the whole build when its fill
hex raises or `RGBColor` rejects the triple); any other `type` builds
nothing. -/
def build_shape (sd : JShape) : Except Unit (Option ShapeInput) :=
  if sd.type.getD "rect" = "rect" then
    match hex_to_rgb (sd.fill.getD "#1e293b") with
    | none => .error ()
    | some (r, g, b) =>
      match mkRGBColor r g b with
      | none => .error ()
      | some rgbv => .ok (some (builtRectShape sd rgbv))
  else if sd.type.getD "rect" = "text" then
    match hex_to_rgb (sd.fill.getD "#ffffff") with
    | none => .error ()
    | some (r, g, b) =>
      match mkRGBColor r g b with
      | none => .error ()
      | some rgbv => .ok (some (builtTextShape sd rgbv))
  else .ok none

/-- The shape loop: sequential, first failure aborts the build. -/
def build_shapes : List JShape → Except Unit (List ShapeInput)
  | [] => .ok []
  | sd :: rest =>
    match build_shape sd with
    | .error e => .error e
    | .ok none => build_shapes rest
    | .ok (some si) => (build_shapes rest).map (si :: ·)

/-- One iteration of the slide loop (`app.py` 368–376): a blank slide whose
background is solid-filled with `hexToRgb` of the slide's color. -/
def build_slide (sl : JSlide) : Except Unit PrsSlide :=
  match hex_to_rgb (sl.backgroundColor.getD "#0f172a") with
  | none => .error ()
  | some (r, g, b) =>
    match mkRGBColor r g b with
    | none => .error ()
    | some rgbv =>
      (build_shapes sl.shapes).map (fun shapes =>
        { background := some { ty := some .solid, fore_color := .ok { rgb := some rgbv } }
          shapes := shapes })

/-- The slide loop. -/
def build_slides : List JSlide → Except Unit (List PrsSlide)
  | [] => .ok []
  | sl :: rest =>
    match build_slide sl with
    | .error e => .error e
    | .ok ps => (build_slides rest).map (ps :: ·)

/-- `build_pptx_from_json(presentation_data)` (`app.py` 354–461).  Modelled
from the spec for the byte stage: §4.3 serializes the completed document to a
byte buffer and §4.2 re-loads it; `prs.save`/`Presentation` round-trip the
document losslessly, so the byte stream is represented by the document value
itself. -/
def build_pptx_from_json (pd : JPres) : Except Unit PrsDoc :=
  (build_slides pd.slides).map (fun slides =>
    { slide_width := pixels_to_emu (pd.width.getD 1280)
      slide_height := pixels_to_emu (pd.height.getD 720)
      slides := slides })

/-! ### Helper lemmas -/

theorem toList_mk (cs : List Char) : (String.mk cs).toList = cs := rfl

/-- Python `int()` truncation is within 1 of its argument. -/
theorem ratTrunc_close (q : ℚ) : |((ratTrunc q : ℚ)) - q| < 1 := by
  unfold ratTrunc
  split
  · rw [abs_sub_comm, abs_of_nonneg (sub_nonneg.mpr (Int.floor_le q))]
    have := Int.lt_floor_add_one q
    linarith
  · rw [abs_of_nonneg (sub_nonneg.mpr (Int.le_ceil q))]
    have := Int.ceil_lt_add_one q
    linarith

/-- The pixel → EMU → pixel round trip moves a value by less than `1/9525`
pixel, in particular by at most one pixel (= 1/96 inch at 96 DPI). -/
theorem emu_pixels_close (p : ℚ) : |emu_to_pixels (pixels_to_emu p) - p| ≤ 1 := by
  unfold emu_to_pixels pixels_to_emu PIXELS_PER_INCH EMU_PER_INCH
  have h1 : |((ratTrunc (p / 96 * 914400) : ℚ)) - p / 96 * 914400| < 1 :=
    ratTrunc_close _
  have h2 : ((ratTrunc (p / 96 * 914400) : ℚ)) / 914400 * 96 - p
      = (((ratTrunc (p / 96 * 914400) : ℚ)) - p / 96 * 914400) / 9525 := by
    ring
  rw [h2, abs_div]
  rw [abs_of_nonneg (by norm_num : (0:ℚ) ≤ 9525)]
  rw [div_le_one (by norm_num)]
  linarith

theorem toHexChar_facts :
    ∀ n < 16, isHexDigitChar (toHexChar n) = true ∧ hexDigitVal (toHexChar n) = n ∧
      toHexChar n ≠ '#' ∧ pySpace (toHexChar n) = false := by
  decide

theorem pyIntHex_pair :
    ∀ a < 16, ∀ b < 16,
      pyIntHex [toHexChar a, toHexChar b] = some ((16 * a + b : Nat) : Int) := by
  decide

/-- Parsing the canonical hex string of a triple recovers the triple. -/
theorem hex_to_rgb_canon (t : RGBTriple) :
    hex_to_rgb (canonHex t) = some ((t.r.val : Int), (t.g.val : Int), (t.b.val : Int)) := by
  obtain ⟨⟨r, hr⟩, ⟨g, hg⟩, ⟨b, hb⟩⟩ := t
  have h1 : r / 16 < 16 := by omega
  have h2 : g / 16 < 16 := by omega
  have h3 : b / 16 < 16 := by omega
  have h4 : r % 16 < 16 := by omega
  have h5 : g % 16 < 16 := by omega
  have h6 : b % 16 < 16 := by omega
  have hne : ¬((toHexChar (r / 16) == '#') = true) := by
    have := (toHexChar_facts (r / 16) h1).2.2.1
    simp only [beq_iff_eq]
    exact this
  have key : (canonHex ⟨⟨r, hr⟩, ⟨g, hg⟩, ⟨b, hb⟩⟩).toList.dropWhile (· == '#')
      = [toHexChar (r / 16), toHexChar (r % 16), toHexChar (g / 16), toHexChar (g % 16),
         toHexChar (b / 16), toHexChar (b % 16)] := by
    simp only [canonHex, toList_mk, pyHex02, List.cons_append, List.nil_append]
    rw [List.dropWhile_cons, if_pos (by decide), List.dropWhile_cons, if_neg hne]
  simp only [hex_to_rgb, key]
  rw [pyIntHex_pair (r / 16) h1 (r % 16) h4, pyIntHex_pair (g / 16) h2 (g % 16) h5,
    pyIntHex_pair (b / 16) h3 (b % 16) h6]
  simp only [Option.some.injEq, Prod.mk.injEq]
  refine ⟨?_, ?_, ?_⟩ <;> omega

/-- `RGBColor` accepts the components `hex_to_rgb` recovered from a canonical
hex string. -/
theorem mkRGBColor_canon (t : RGBTriple) :
    mkRGBColor (t.r.val : Int) (t.g.val : Int) (t.b.val : Int) = some t := by
  obtain ⟨⟨r, hr⟩, ⟨g, hg⟩, ⟨b, hb⟩⟩ := t
  simp only [mkRGBColor]
  rw [dif_pos (by omega)]
  simp only [Option.some.injEq, RGBTriple.mk.injEq, Fin.mk.injEq]
  refine ⟨?_, ?_, ?_⟩ <;> omega

theorem rgb_to_hex_canon (t : RGBTriple) :
    rgb_to_hex (some { rgb := some t }) = some (canonHex t) := rfl

/-! ### Claims -/

/-- Claim C2: whenever loading the document fails (with the exception's
message), `parse_pptx_bytes` returns — it does not raise — an object whose
`error` is that non-empty message, whose `slides` is empty, and whose
`width`/`height` are the 1280×720 fallback. -/
theorem C2_document_failure_fallback (msg : String) (h : msg ≠ "") :
    (parse_pptx_bytes (.error msg)).error = some msg ∧ msg ≠ "" ∧
    (parse_pptx_bytes (.error msg)).slides = [] ∧
    (parse_pptx_bytes (.error msg)).width = 1280 ∧
    (parse_pptx_bytes (.error msg)).height = 720 :=
  ⟨rfl, h, rfl, rfl, rfl⟩

theorem C2_document_failure_fallback_witness :
    (parse_pptx_bytes (.error "Package not found")).error = some "Package not found" ∧
    "Package not found" ≠ "" ∧
    (parse_pptx_bytes (.error "Package not found")).slides = [] ∧
    (parse_pptx_bytes (.error "Package not found")).width = 1280 ∧
    (parse_pptx_bytes (.error "Package not found")).height = 720 :=
  C2_document_failure_fallback "Package not found" (by decide)

/-- Claim C4, counterexample: `"zzzzzz"` normalizes to itself, is not six
hexadecimal digits, yet `hex_to_rgb` raises `ValueError` (= `none`) on it
instead of returning white — the claim's "returns white and never fails for
every non-6-hex-digit input" is false. -/
theorem C4_counterexample :
    hex_to_rgb "zzzzzz" = none ∧
    ((("zzzzzz").toList.dropWhile (· == '#')).all isHexDigitChar = false) := by
  decide

/-- Claim C4 (amended): `hex_to_rgb` returns white `(255,255,255)` exactly
when the `#`-stripped string does not have length 6 (which covers `""`,
`"zzz"`, `"#12"`); a length-6 string with invalid hex pairs raises instead. -/
theorem C4_hex_fallback (s : String)
    (h : (s.toList.dropWhile (· == '#')).length ≠ 6) :
    hex_to_rgb s = some (255, 255, 255) := by
  unfold hex_to_rgb
  generalize hg : s.toList.dropWhile (· == '#') = cs at h ⊢
  rcases cs with _ | ⟨c1, cs⟩
  · rfl
  rcases cs with _ | ⟨c2, cs⟩
  · rfl
  rcases cs with _ | ⟨c3, cs⟩
  · rfl
  rcases cs with _ | ⟨c4, cs⟩
  · rfl
  rcases cs with _ | ⟨c5, cs⟩
  · rfl
  rcases cs with _ | ⟨c6, cs⟩
  · rfl
  rcases cs with _ | ⟨c7, cs⟩
  · simp at h
  · rfl

theorem C4_hex_fallback_witness :
    (("zzz").toList.dropWhile (· == '#')).length ≠ 6 ∧
    hex_to_rgb "zzz" = some (255, 255, 255) :=
  ⟨by decide, C4_hex_fallback "zzz" (by decide)⟩

/-- Claim C5, counterexample: at `p = 0.51` pixels the exact EMU value is
`4857.75`; `pixels_to_emu` truncates to `4857`, while the claimed
round-to-nearest gives `4858`. -/
theorem C5_counterexample :
    pixels_to_emu (51 / 100) = 4857 ∧
    round (((51 : ℚ) / 100) / 96 * 914400) = 4858 ∧
    (4857 : Int) ≠ 4858 := by
  refine ⟨?_, ?_, by decide⟩
  · unfold pixels_to_emu ratTrunc PIXELS_PER_INCH EMU_PER_INCH
    norm_num
  · rw [round_eq]
    norm_num

/-- Claim C5 (amended): `pixels_to_emu` truncates `(p/96)*914400` toward zero
(Python `int()`), so for `p ≥ 0` it returns the floor of the exact value,
which is within one EMU of it — not the nearest integer. -/
theorem C5_pixels_to_emu_truncates (p : ℚ) (hp : 0 ≤ p) :
    pixels_to_emu p = ⌊p / 96 * 914400⌋ ∧
    |((pixels_to_emu p : ℚ)) - p / 96 * 914400| < 1 := by
  constructor
  · unfold pixels_to_emu ratTrunc PIXELS_PER_INCH EMU_PER_INCH
    rw [if_pos (mul_nonneg (div_nonneg hp (by norm_num)) (by norm_num))]
  · have h := ratTrunc_close (p / 96 * 914400)
    unfold pixels_to_emu PIXELS_PER_INCH EMU_PER_INCH
    exact h

theorem C5_pixels_to_emu_truncates_witness :
    ((0 : ℚ) ≤ 7 / 2) ∧
    (pixels_to_emu (7 / 2) = ⌊(7 : ℚ) / 2 / 96 * 914400⌋ ∧
     |((pixels_to_emu ((7 : ℚ) / 2) : ℚ)) - (7 : ℚ) / 2 / 96 * 914400| < 1) :=
  ⟨by norm_num, C5_pixels_to_emu_truncates (7 / 2) (by norm_num)⟩

/-- Claim C6: for every pixel value `p ≥ 0`, converting to EMU and back moves
the value by at most one pixel (1/96 inch at 96 DPI). -/
theorem C6_unit_roundtrip (p : ℚ) (_hp : 0 ≤ p) :
    |emu_to_pixels (pixels_to_emu p) - p| ≤ 1 :=
  emu_pixels_close p

theorem C6_unit_roundtrip_witness :
    ((0 : ℚ) ≤ 3 / 2) ∧ |emu_to_pixels (pixels_to_emu (3 / 2)) - 3 / 2| ≤ 1 :=
  ⟨by norm_num, C6_unit_roundtrip (3 / 2) (by norm_num)⟩

/-- Claim C9, counterexample: a slide whose background fill is *patterned*
(not solid) with an RGB foreground color still has that color extracted —
`get_background_color` only tests `fill.type is not None`, so "extracts the
foreground color if and only if the slide defines a solid fill" is false. -/
theorem C9_counterexample :
    get_background_color
        (some { ty := some .patterned, fore_color := .ok { rgb := some ⟨17, 34, 51⟩ } })
      = "#112233" ∧
    MsoFillKind.patterned ≠ MsoFillKind.solid := by
  refine ⟨?_, by decide⟩
  decide

/-- Claim C9 (amended): `get_background_color` returns the fill's foreground
color as canonical hex whenever the fill reports *any* non-`None` fill type
and the foreground color access succeeds with an RGB value — solid or not;
in every other case (background access raising, `type` `None`, `fore_color`
raising, or no RGB value) it returns the default `#0f172a`. -/
theorem C9_background_extraction (fi : FillInfo) (cf : ColorFormat) (t : RGBTriple) :
    (fi.ty ≠ none → fi.fore_color = .ok cf → cf.rgb = some t →
      get_background_color (some fi) = canonHex t) ∧
    (fi.ty = none → get_background_color (some fi) = "#0f172a") ∧
    (fi.fore_color = .error () → get_background_color (some fi) = "#0f172a") ∧
    (fi.fore_color = .ok cf → cf.rgb = none → get_background_color (some fi) = "#0f172a") ∧
    get_background_color none = "#0f172a" := by
  refine ⟨?_, ?_, ?_, ?_, rfl⟩
  · intro h1 h2 h3
    simp only [get_background_color, if_pos h1, h2, rgb_to_hex, h3]
    rfl
  · intro h1
    simp [get_background_color, h1]
  · intro h2
    by_cases hty : fi.ty = none
    · simp [get_background_color, hty]
    · simp [get_background_color, hty, h2]
  · intro h2 h3
    by_cases hty : fi.ty = none
    · simp [get_background_color, hty]
    · simp [get_background_color, hty, h2, rgb_to_hex, h3]

theorem C9_background_extraction_witness :
    get_background_color
        (some { ty := some .solid, fore_color := .ok { rgb := some ⟨170, 187, 204⟩ } })
      = canonHex ⟨170, 187, 204⟩ :=
  (C9_background_extraction
      { ty := some .solid, fore_color := .ok { rgb := some ⟨170, 187, 204⟩ } }
      { rgb := some ⟨170, 187, 204⟩ } ⟨170, 187, 204⟩).1 (by decide) rfl rfl

/-- Inserting a shape entry that builds to nothing leaves the built shape
list unchanged. -/
theorem build_shapes_middle (x : JShape) (hx : build_shape x = .ok none)
    (pre post : List JShape) :
    build_shapes (pre ++ x :: post) = build_shapes (pre ++ post) := by
  induction pre with
  | nil => simp only [List.nil_append, build_shapes, hx]
  | cons a t ih =>
    simp only [List.cons_append, build_shapes, List.append_eq]
    rw [ih]

/-- Replacing one slide by one that builds identically leaves the built
slide list unchanged. -/
theorem build_slides_middle (A B : JSlide) (hAB : build_slide A = build_slide B)
    (s1 s2 : List JSlide) :
    build_slides (s1 ++ A :: s2) = build_slides (s1 ++ B :: s2) := by
  induction s1 with
  | nil => simp only [List.nil_append, build_slides, hAB]
  | cons a t ih =>
    simp only [List.cons_append, build_slides, List.append_eq]
    rw [ih]

/-- Claim C10: a shape entry whose `type` is neither `"rect"` nor `"text"` is
silently skipped by `build_pptx_from_json`: the build result — including
every other shape and slide, and whether the build fails at all — is the same
as if the entry were absent. -/
theorem C10_skip_unknown_type (w h : Option ℚ) (s1 s2 : List JSlide)
    (bg : Option String) (pre post : List JShape) (other : JShape) (t : String)
    (h1 : other.type = some t) (h2 : t ≠ "rect") (h3 : t ≠ "text") :
    build_pptx_from_json ⟨w, h, s1 ++ ⟨bg, pre ++ other :: post⟩ :: s2⟩ =
    build_pptx_from_json ⟨w, h, s1 ++ ⟨bg, pre ++ post⟩ :: s2⟩ := by
  have hskip : build_shape other = .ok none := by
    unfold build_shape
    rw [h1]
    simp only [Option.getD_some]
    rw [if_neg h2, if_neg h3]
  have hsl : build_slide ⟨bg, pre ++ other :: post⟩ = build_slide ⟨bg, pre ++ post⟩ := by
    unfold build_slide
    rw [build_shapes_middle other hskip pre post]
  unfold build_pptx_from_json
  rw [build_slides_middle _ _ hsl s1 s2]

theorem C10_skip_unknown_type_witness :
    build_pptx_from_json
        ⟨some 1280, some 720, [⟨some "#0f172a", [{ type := some "circle" }]⟩]⟩ =
    build_pptx_from_json ⟨some 1280, some 720, [⟨some "#0f172a", []⟩]⟩ :=
  C10_skip_unknown_type (some 1280) (some 720) [] [] (some "#0f172a") [] []
    { type := some "circle" } "circle" rfl (by decide) (by decide)

/-- Replacing one slide by one that parses identically at every index leaves
the enumerated parsed-slide list unchanged. -/
theorem parse_slides_enum_middle (A B : PrsSlide)
    (hAB : ∀ n, parse_slide n A = parse_slide n B)
    (s1 s2 : List PrsSlide) :
    ∀ n, (List.enumFrom n (s1 ++ A :: s2)).map (fun p => parse_slide p.1 p.2) =
      (List.enumFrom n (s1 ++ B :: s2)).map (fun p => parse_slide p.1 p.2) := by
  induction s1 with
  | nil =>
    intro n
    simp only [List.nil_append, List.enumFrom, List.map]
    rw [hAB n]
  | cons a tl ih =>
    intro n
    simp only [List.cons_append, List.enumFrom, List.map, List.append_eq]
    rw [ih (n + 1)]

/-- Claim C3: a failure parsing one shape (`parse_shape` returning no result)
is isolated to that shape — the whole-document parse equals the parse of the
document without that shape, so every other shape on the slide and every
other slide appear unchanged. -/
theorem C3_shape_failure_isolated (wd ht : Int) (s1 s2 : List PrsSlide)
    (bg : Option FillInfo) (pre post : List ShapeInput) (bad : ShapeInput)
    (hbad : parse_shape bad = none) :
    parse_pptx_bytes (.ok ⟨wd, ht, s1 ++ ⟨bg, pre ++ bad :: post⟩ :: s2⟩) =
    parse_pptx_bytes (.ok ⟨wd, ht, s1 ++ ⟨bg, pre ++ post⟩ :: s2⟩) := by
  have hsl : ∀ n, parse_slide n ⟨bg, pre ++ bad :: post⟩ = parse_slide n ⟨bg, pre ++ post⟩ := by
    intro n
    unfold parse_slide
    simp only [List.filterMap_append, List.filterMap_cons, hbad]
  unfold parse_pptx_bytes
  simp only [List.enum]
  rw [parse_slides_enum_middle _ _ hsl s1 s2 0]

/-- A shape on which some attribute access raises during `parse_shape`. -/
def C3badShape : ShapeInput :=
  { shape_id := 3, name := "", left := 0, top := 0, width := 0, height := 0,
    text_frame := none, shape_type := .picture, fill := none, broken := true }

/-- A plain auto-shape that parses to a rect. -/
def C3goodShape : ShapeInput :=
  { shape_id := 2, name := "card", left := 91440, top := 91440, width := 914400,
    height := 914400, text_frame := none, shape_type := .auto_shape, fill := none,
    broken := false }

theorem C3_shape_failure_isolated_witness :
    parse_pptx_bytes (.ok ⟨12192000, 6858000, [⟨none, [C3goodShape, C3badShape]⟩]⟩) =
    parse_pptx_bytes (.ok ⟨12192000, 6858000, [⟨none, [C3goodShape]⟩]⟩) :=
  C3_shape_failure_isolated 12192000 6858000 [] [] none [C3goodShape] [] C3badShape rfl

/-- Claim C7, counterexample: an auto-shape whose text frame holds only
whitespace is *not* dropped — the whitespace test falls through to the
auto-shape branch and `parse_shape` emits a `rect` Shape for it. -/
theorem C7_counterexample :
    pyStrip "   " = "" ∧
    (parse_shape
        { shape_id := 7, name := "box", left := 0, top := 0, width := 914400,
          height := 457200,
          text_frame := some
            { text := "   ", margins := some (0, 0, 0, 0), vertical_anchor := none,
              word_wrap := none, paragraphs := [] },
          shape_type := .auto_shape, fill := none, broken := false }).map
        (fun o => o.type)
      = some "rect" :=
  ⟨rfl, rfl⟩

/-- Claim C7 (amended): a text frame whose text trims to empty is treated as
absent, and the shape is then classified by its shape type — dropped unless
it is an auto-shape, in which case a `rect` Shape (with no `text` field) is
emitted; a text frame with non-whitespace text yields a `text` Shape carrying
the frame's exact text. -/
theorem C7_whitespace_text (s : ShapeInput) (tf : TextFrame)
    (hb : s.broken = false) (htf : s.text_frame = some tf) :
    (pyStrip tf.text = "" →
      (s.shape_type ≠ .auto_shape → parse_shape s = none) ∧
      (s.shape_type = .auto_shape →
        ∃ o, parse_shape s = some o ∧ o.type = "rect" ∧ o.text = none)) ∧
    (pyStrip tf.text ≠ "" →
      ∃ o, parse_shape s = some o ∧ o.type = "text" ∧ o.text = some tf.text) := by
  constructor
  · intro hws
    have hcond : ¬(pyStrip tf.text ≠ "") := by simp [hws]
    constructor
    · intro hnot
      simp only [parse_shape, hb, htf, Bool.false_eq_true, if_false]
      rw [if_neg hcond]
      simp only [rect_branch, if_neg hnot]
    · intro hauto
      simp only [parse_shape, hb, htf, Bool.false_eq_true, if_false]
      rw [if_neg hcond]
      simp only [rect_branch, if_pos hauto]
      exact ⟨_, rfl, rfl, rfl⟩
  · intro hts
    simp only [parse_shape, hb, htf, Bool.false_eq_true, if_false]
    rw [if_pos hts]
    rcases hps : tf.paragraphs with _ | ⟨para, rest⟩
    · simp only [text_branch, hps]
      exact ⟨_, rfl, rfl, rfl⟩
    · simp only [text_branch, hps]
      exact ⟨_, rfl, rfl, rfl⟩

/-- A text frame with real text. -/
def C7tf : TextFrame :=
  { text := " Q3 Revenue ", margins := none, vertical_anchor := none,
    word_wrap := none, paragraphs := [] }

def C7textShape : ShapeInput :=
  { shape_id := 5, name := "t", left := 0, top := 0, width := 914400, height := 457200,
    text_frame := some C7tf, shape_type := .text_box, fill := none, broken := false }

theorem C7_whitespace_text_witness :
    ∃ o, parse_shape C7textShape = some o ∧ o.type = "text" ∧ o.text = some C7tf.text :=
  (C7_whitespace_text C7textShape C7tf rfl rfl).2 (by decide)

/-- Claim C8: the two line-height computations are mutually inverse — the
forward transcoder maps a paragraph with absolute spacing `sp` points and
resolved font size `f ≠ 0` to `lineHeight = max 1 (sp / f)`, and the reverse
transcoder given `lineHeight lh` and `fontSize f` writes absolute line
spacing `max 1 lh * f` points. -/
theorem C8_line_height_inverse :
    (∀ (s : ShapeInput) (tf : TextFrame) (para : Paragraph) (rest : List Paragraph)
        (sp f : ℚ),
      s.broken = false → s.text_frame = some tf → pyStrip tf.text ≠ "" →
      tf.paragraphs = para :: rest → para.line_spacing = some (.pts sp) →
      (resolvedStyle para).fontSize.getD 16 = f → f ≠ 0 →
      ∃ o, parse_shape s = some o ∧ o.lineHeight = some (max 1 (sp / f))) ∧
    (∀ (sd : JShape) (rgbv : RGBTriple) (lh f : ℚ),
      sd.lineHeight = some lh → sd.fontSize = some f →
      (builtParagraph sd rgbv).line_spacing = some (.pts (max 1 lh * f))) := by
  constructor
  · intro s tf para rest sp f hb htf hts hpar hls hf hf0
    refine ⟨text_branch (baseShape s) tf, ?_, ?_⟩
    · simp only [parse_shape, hb, Bool.false_eq_true, if_false, htf]
      rw [if_pos hts]
    · simp only [text_branch, hpar, parsedLineHeight, hls, parsedFontSize, hf]
      rw [if_neg hf0]
  · intro sd rgbv lh f hlh hf
    simp only [builtParagraph, hlh, hf, Option.getD_some]

def C8para : Paragraph :=
  { alignment := none, runs := [],
    font := { size := some 20, name := none, color := none, bold := none, italic := none },
    line_spacing := some (.pts 26) }

def C8tf : TextFrame :=
  { text := "Body", margins := none, vertical_anchor := none, word_wrap := none,
    paragraphs := [C8para] }

def C8shape : ShapeInput :=
  { shape_id := 8, name := "", left := 0, top := 0, width := 914400, height := 457200,
    text_frame := some C8tf, shape_type := .text_box, fill := none, broken := false }

def C8jshape : JShape :=
  { type := some "text", lineHeight := some (13 / 10), fontSize := some 20 }

theorem C8_line_height_inverse_witness :
    (∃ o, parse_shape C8shape = some o ∧ o.lineHeight = some (max 1 ((26 : ℚ) / 20))) ∧
    (builtParagraph C8jshape ⟨255, 255, 255⟩).line_spacing
      = some (.pts (max 1 ((13 : ℚ) / 10) * 20)) ∧
    max 1 ((26 : ℚ) / 20) = 13 / 10 ∧ max 1 ((13 : ℚ) / 10) * 20 = 26 := by
  refine ⟨?_, ?_, ?_, ?_⟩
  · exact C8_line_height_inverse.1 C8shape C8tf C8para [] 26 20 rfl rfl (by decide)
      rfl rfl rfl (by norm_num)
  · exact C8_line_height_inverse.2 C8jshape ⟨255, 255, 255⟩ (13 / 10) 20 rfl rfl
  · rw [max_eq_right (by norm_num : (1 : ℚ) ≤ 26 / 20)]
    norm_num
  · rw [max_eq_right (by norm_num : (1 : ℚ) ≤ 13 / 10)]
    norm_num

/-! ### Round trip (claim C1) -/

/-- A color field in the wire format: a canonical lowercase `#rrggbb` string. -/
def WFColor (c : String) : Prop :=
  ∃ t : RGBTriple, c = canonHex t

/-- A shape entry in the wire format: canonical fill color, `type` one of the
two variants, and for `text` the §3 invariants — non-whitespace text,
a font size (positive), and a line height `≥ 1`. -/
def WFShape (sd : JShape) : Prop :=
  (∃ c, sd.fill = some c ∧ WFColor c) ∧
  (sd.type = some "rect" ∨
    (sd.type = some "text" ∧
      (∃ tx, sd.text = some tx ∧ pyStrip tx ≠ "") ∧
      (∃ f, sd.fontSize = some f ∧ 0 < f) ∧
      (∃ lh, sd.lineHeight = some lh ∧ 1 ≤ lh)))

def WFSlide (sl : JSlide) : Prop :=
  (∃ c, sl.backgroundColor = some c ∧ WFColor c) ∧ ∀ sd ∈ sl.shapes, WFShape sd

def WFPres (pd : JPres) : Prop :=
  ∀ sl ∈ pd.slides, WFSlide sl

/-- The claim's per-shape comparison: same variant, position/size within one
pixel (1/96 inch), fill byte-exact, and for text shapes exact text and
line height within `1e-3`. -/
def shapeMatches (j : JShape) (o : ShapeData) : Prop :=
  o.type = j.type.getD "rect" ∧
  |o.x - j.x.getD 0| ≤ 1 ∧ |o.y - j.y.getD 0| ≤ 1 ∧
  |o.width - j.width.getD 100| ≤ 1 ∧ |o.height - j.height.getD 50| ≤ 1 ∧
  o.fill = j.fill ∧
  (o.type = "text" → o.text = j.text ∧
    ∃ lh lh2, j.lineHeight = some lh ∧ o.lineHeight = some lh2 ∧ |lh2 - lh| ≤ 1 / 1000)

def slideMatches (js : JSlide) (so : SlideOut) : Prop :=
  so.backgroundColor = js.backgroundColor.getD "#0f172a" ∧
  List.Forall₂ shapeMatches js.shapes so.shapes

/-- A wire-format `rect` entry builds to an auto-shape that parses back to a
matching rect. -/
theorem shape_case_rect (sd : JShape) (t : RGBTriple)
    (hty : sd.type = some "rect") (hfill : sd.fill = some (canonHex t)) :
    ∃ si o, build_shape sd = .ok (some si) ∧ parse_shape si = some o ∧
      shapeMatches sd o := by
  have hbuild : build_shape sd = .ok (some (builtRectShape sd t)) := by
    simp only [build_shape, hty, Option.getD_some, hfill,
      hex_to_rgb_canon, mkRGBColor_canon, if_true]
  have hparse : parse_shape (builtRectShape sd t)
      = some { id := "0", name := "", x := emu_to_pixels (pixels_to_emu (sd.x.getD 0)),
               y := emu_to_pixels (pixels_to_emu (sd.y.getD 0)),
               width := emu_to_pixels (pixels_to_emu (sd.width.getD 100)),
               height := emu_to_pixels (pixels_to_emu (sd.height.getD 50)),
               type := "rect", draggable := true, fill := some (canonHex t) } := by
    with_unfolding_all rfl
  refine ⟨builtRectShape sd t, _, hbuild, hparse, ?_, ?_, ?_, ?_, ?_, ?_, ?_⟩
  · rw [hty]
    rfl
  · exact emu_pixels_close _
  · exact emu_pixels_close _
  · exact emu_pixels_close _
  · exact emu_pixels_close _
  · rw [hfill]
  · intro hcontra
    simp at hcontra

/-- The built text paragraph's line height parses back exactly when the font
size is non-zero and the line height is `≥ 1`. -/
theorem parsedLineHeight_built (sd : JShape) (t : RGBTriple) (f lh : ℚ)
    (hf : sd.fontSize = some f) (hf0 : 0 < f)
    (hlh : sd.lineHeight = some lh) (hlh1 : 1 ≤ lh) :
    parsedLineHeight (builtParagraph sd t) = lh := by
  simp only [parsedLineHeight, builtParagraph, parsedFontSize, resolvedStyle,
    font_to_style, hf, hlh, Option.getD_some]
  rw [if_neg (ne_of_gt hf0)]
  rw [max_eq_right hlh1, mul_div_assoc, div_self (ne_of_gt hf0), mul_one,
    max_eq_right hlh1]

/-- A wire-format `text` entry builds to a text box that parses back to a
matching text shape. -/
theorem shape_case_text (sd : JShape) (t : RGBTriple) (tx : String) (f lh : ℚ)
    (hty : sd.type = some "text") (hfill : sd.fill = some (canonHex t))
    (htext : sd.text = some tx) (hts : pyStrip tx ≠ "")
    (hf : sd.fontSize = some f) (hf0 : 0 < f)
    (hlh : sd.lineHeight = some lh) (hlh1 : 1 ≤ lh) :
    ∃ si o, build_shape sd = .ok (some si) ∧ parse_shape si = some o ∧
      shapeMatches sd o := by
  have hbuild : build_shape sd = .ok (some (builtTextShape sd t)) := by
    simp only [build_shape, hty, Option.getD_some, hfill,
      hex_to_rgb_canon, mkRGBColor_canon, if_true, if_false]
    rw [if_neg (by decide : ¬ ("text" : String) = "rect")]
  have hlhp : parsedLineHeight (builtParagraph sd t) = lh :=
    parsedLineHeight_built sd t f lh hf hf0 hlh hlh1
  have hparse : parse_shape (builtTextShape sd t)
      = some (text_branch (baseShape (builtTextShape sd t))
          { text := tx
            margins := some
              (pixels_to_emu (sd.padding.getD {}).left,
               pixels_to_emu (sd.padding.getD {}).right,
               pixels_to_emu (sd.padding.getD {}).top,
               pixels_to_emu (sd.padding.getD {}).bottom)
            vertical_anchor := some
              (match sd.vAlign.getD "top" with
               | "middle" => VAnchorE.middle
               | "bottom" => VAnchorE.bottom
               | _ => VAnchorE.top)
            word_wrap := some (sd.wrap.getD true)
            paragraphs := [builtParagraph sd t] }) := by
    simp only [parse_shape, builtTextShape, htext, Option.getD_some,
      Bool.false_eq_true, if_false]
    rw [if_pos hts]
  refine ⟨builtTextShape sd t, _, hbuild, hparse, ?_, ?_, ?_, ?_, ?_, ?_, ?_⟩
  · rw [hty]
    rfl
  · exact emu_pixels_close _
  · exact emu_pixels_close _
  · exact emu_pixels_close _
  · exact emu_pixels_close _
  · rw [hfill]
    rfl
  · intro _
    constructor
    · rw [htext]
      rfl
    · refine ⟨lh, lh, hlh, ?_, by simp⟩
      show some (parsedLineHeight (builtParagraph sd t)) = some lh
      rw [hlhp]

/-- Every wire-format shape of a list builds, and the built shapes parse back
to a pointwise-matching list. -/
theorem build_parse_shapes (l : List JShape) (h : ∀ sd ∈ l, WFShape sd) :
    ∃ sis, build_shapes l = .ok sis ∧
      List.Forall₂ shapeMatches l (sis.filterMap parse_shape) := by
  induction l with
  | nil => exact ⟨[], rfl, List.Forall₂.nil⟩
  | cons sd rest ih =>
    obtain ⟨sis, hbs, hmatch⟩ := ih (fun x hx => h x (List.mem_cons_of_mem _ hx))
    obtain ⟨⟨c, hfillc, t, hct⟩, hcases⟩ := h sd (List.mem_cons_self _ _)
    have hkey : ∃ si o, build_shape sd = .ok (some si) ∧ parse_shape si = some o ∧
        shapeMatches sd o := by
      subst hct
      rcases hcases with hrect | ⟨htext0, ⟨tx, htx, hts⟩, ⟨f, hff, hf0⟩, ⟨lh, hl, hl1⟩⟩
      · exact shape_case_rect sd t hrect hfillc
      · exact shape_case_text sd t tx f lh htext0 hfillc htx hts hff hf0 hl hl1
    obtain ⟨si, o, h1, h2, h3⟩ := hkey
    refine ⟨si :: sis, ?_, ?_⟩
    · simp only [build_shapes, h1, hbs]
      rfl
    · simp only [List.filterMap_cons, h2]
      exact List.Forall₂.cons h3 hmatch

/-- Every wire-format slide builds, and the built slide parses back to a
matching slide at any index. -/
theorem build_parse_slide (sl : JSlide) (h : WFSlide sl) :
    ∃ ps, build_slide sl = .ok ps ∧ ∀ idx, slideMatches sl (parse_slide idx ps) := by
  obtain ⟨⟨c, hbgc, t, hct⟩, hsh⟩ := h
  subst hct
  obtain ⟨sis, hbs, hmatch⟩ := build_parse_shapes sl.shapes hsh
  refine ⟨{ background := some { ty := some .solid, fore_color := .ok { rgb := some t } },
            shapes := sis }, ?_, ?_⟩
  · simp only [build_slide, hbgc, Option.getD_some, hex_to_rgb_canon, mkRGBColor_canon,
      hbs]
    rfl
  · intro idx
    constructor
    · simp only [parse_slide, hbgc, Option.getD_some]
      rfl
    · exact hmatch

/-- Every wire-format slide list builds, and the enumerated parse matches it
pointwise. -/
theorem build_parse_slides_all (l : List JSlide) (h : ∀ sl ∈ l, WFSlide sl) :
    ∃ pss, build_slides l = .ok pss ∧
      ∀ n, List.Forall₂ slideMatches l
        ((List.enumFrom n pss).map (fun p => parse_slide p.1 p.2)) := by
  induction l with
  | nil => exact ⟨[], rfl, fun _ => List.Forall₂.nil⟩
  | cons sl rest ih =>
    obtain ⟨pss, hbs, hall⟩ := ih (fun x hx => h x (List.mem_cons_of_mem _ hx))
    obtain ⟨ps, hb1, hm1⟩ := build_parse_slide sl (h sl (List.mem_cons_self _ _))
    refine ⟨ps :: pss, ?_, ?_⟩
    · simp only [build_slides, hb1, hbs]
      rfl
    · intro n
      simp only [List.enumFrom, List.map]
      exact List.Forall₂.cons (hm1 n) (hall (n + 1))

/-- Claim C1 (amended): for every scene graph `G` whose colors are canonical
lowercase hex, whose text shapes carry non-whitespace text, a positive font
size and a line height `≥ 1`, the reverse transcoder succeeds and re-running
the forward transcoder yields a presentation matching `G` slide-for-slide
and shape-for-shape: same variant, position/size within 1/96 inch, colors
byte-exact, text exact, line height within `1e-3` (indeed exact).  Without
the positive-font-size restriction the claim is false
(see the counterexample). -/
theorem C1_roundtrip (pd : JPres) (h : WFPres pd) :
    ∃ doc, build_pptx_from_json pd = .ok doc ∧
      (parse_pptx_bytes (.ok doc)).error = none ∧
      List.Forall₂ slideMatches pd.slides (parse_pptx_bytes (.ok doc)).slides := by
  obtain ⟨pss, hbs, hall⟩ := build_parse_slides_all pd.slides h
  refine ⟨{ slide_width := pixels_to_emu (pd.width.getD 1280),
            slide_height := pixels_to_emu (pd.height.getD 720), slides := pss },
          ?_, rfl, ?_⟩
  · simp only [build_pptx_from_json, hbs]
    rfl
  · simp only [parse_pptx_bytes, List.enum]
    exact hall 0

/-- The spec §8 full-round-trip scenario: one slide, background `#112233`,
a rect at (10,20,100,50) filled `#aabbcc`, and a centered `"Hello"` text
shape at (10,80,200,40). -/
def C1rectEntry : JShape :=
  { type := some "rect", x := some 10, y := some 20, width := some 100,
    height := some 50, fill := some "#aabbcc" }

def C1textEntry : JShape :=
  { type := some "text", x := some 10, y := some 80, width := some 200,
    height := some 40, fill := some "#ffffff", text := some "Hello",
    align := some "center", fontSize := some 18, lineHeight := some 1,
    wrap := some true, vAlign := some "middle" }

def C1pres : JPres :=
  { width := some 1280, height := some 720,
    slides := [{ backgroundColor := some "#112233",
                 shapes := [C1rectEntry, C1textEntry] }] }

theorem C1_roundtrip_witness :
    WFPres C1pres ∧
    ∃ doc, build_pptx_from_json C1pres = .ok doc ∧
      (parse_pptx_bytes (.ok doc)).error = none ∧
      List.Forall₂ slideMatches C1pres.slides (parse_pptx_bytes (.ok doc)).slides := by
  have hwf : WFPres C1pres := by
    intro sl hsl
    simp only [C1pres, List.mem_singleton] at hsl
    subst hsl
    refine ⟨⟨"#112233", rfl, ⟨17, 34, 51⟩, by decide⟩, ?_⟩
    intro sd hsd
    simp only [List.mem_cons, List.not_mem_nil, or_false] at hsd
    rcases hsd with rfl | rfl
    · exact ⟨⟨"#aabbcc", rfl, ⟨170, 187, 204⟩, by decide⟩, Or.inl rfl⟩
    · exact ⟨⟨"#ffffff", rfl, ⟨255, 255, 255⟩, by decide⟩,
        Or.inr ⟨rfl, ⟨"Hello", rfl, by decide⟩, ⟨18, rfl, by norm_num⟩,
          ⟨1, rfl, le_refl 1⟩⟩⟩
  exact ⟨hwf, C1_roundtrip C1pres hwf⟩

/-- A wire-format text shape with `fontSize 0` and `lineHeight 2`. -/
def C1cexShape : JShape :=
  { type := some "text", x := some 10, y := some 10, width := some 100,
    height := some 40, fill := some "#ffffff", text := some "A",
    fontSize := some 0, lineHeight := some 2 }

def C1cexPres : JPres :=
  { width := some 1280, height := some 720,
    slides := [{ backgroundColor := some "#0f172a", shapes := [C1cexShape] }] }

/-- Claim C1, counterexample: the round-trip property as stated quantifies
over every wire-format scene graph, but for a text shape with `fontSize 0`
and `lineHeight 2` the reverse transcoder writes absolute spacing
`max(1,2)*0 = 0` points, and the forward transcoder — whose `or 16.0`
fallback replaces the parsed font size `0.0` — reads back
`lineHeight = max(1, 0/16) = 1`, off by `1 > 1e-3`. -/
theorem C1_counterexample :
    (build_pptx_from_json C1cexPres).toOption.map
        (fun doc => (parse_pptx_bytes (.ok doc)).slides.map
          (fun s => s.shapes.map (fun o => o.lineHeight)))
      = some [[some 1]] ∧
    C1cexShape.lineHeight = some 2 ∧
    ¬ |(1 : ℚ) - 2| ≤ 1 / 1000 := by
  have h1 : hex_to_rgb "#ffffff" = some (255, 255, 255) := by decide
  have h2 : mkRGBColor 255 255 255 = some ⟨255, 255, 255⟩ := by decide
  have h3 : hex_to_rgb "#0f172a" = some (15, 23, 42) := by decide
  have h4 : mkRGBColor 15 23 42 = some ⟨15, 23, 42⟩ := by decide
  have hshape : build_shape C1cexShape
      = .ok (some (builtTextShape C1cexShape ⟨255, 255, 255⟩)) := by
    simp only [build_shape, C1cexShape, Option.getD_some, h1, h2, if_true, if_false]
    rw [if_neg (by decide : ¬ ("text" : String) = "rect")]
  have hdoc : build_pptx_from_json C1cexPres = .ok
      { slide_width := pixels_to_emu 1280, slide_height := pixels_to_emu 720,
        slides := [{ background := some
                       { ty := some .solid, fore_color := .ok { rgb := some ⟨15, 23, 42⟩ } },
                     shapes := [builtTextShape C1cexShape ⟨255, 255, 255⟩] }] } := by
    simp only [build_pptx_from_json, build_slides, build_slide, build_shapes, C1cexPres,
      Option.getD_some, h3, h4, hshape]
    rfl
  have hval : parsedLineHeight (builtParagraph C1cexShape ⟨255, 255, 255⟩) = 1 := by
    simp only [parsedLineHeight, builtParagraph, parsedFontSize, resolvedStyle,
      font_to_style, C1cexShape, Option.getD_some, if_true]
    rw [max_eq_right (by norm_num : (1 : ℚ) ≤ 2), mul_zero, zero_div,
      max_eq_left (by norm_num : (0 : ℚ) ≤ 1)]
  refine ⟨?_, rfl, ?_⟩
  · rw [hdoc]
    simp only [Except.toOption, Option.map_some', parse_pptx_bytes, List.enum,
      List.enumFrom, List.map, parse_slide, text_branch]
    rw [hval]
  · rw [show (1 : ℚ) - 2 = -1 by norm_num, abs_neg, abs_one]
    norm_num

end SlideApp
